import Mathlib

/-!
Shallow embedding of the contract-ownership verification service: the
Contract Store (`contracts.ts`) and the contracts route controllers
(`createContract`, `startVerification`, `completeVerification`,
`deleteContract`).  Database rows are lists, database-generated values
(timestamps, fresh ids) are explicit parameters, JavaScript null/undefined is
`Option`, and a thrown categorized error is `Except.error`.  Parts of the
repository that the route imports but whose source is not available (the
challenge store, the transactions model, `generateChallenge`,
`addressEqualityCheck`) are modelled from the spec and say so in their doc
comments.
-/

/-- Contract lifecycle states, from the `ContractState` enum in `contracts.ts`. -/
inductive ContractState where
  | NOT_VERIFIED
  | VERIFIED
  | DELETED
deriving DecidableEq, Repr

/-- Modelled from the spec: the challenge lifecycle states PENDING, COMPLETED,
EXPIRED; the `ChallengeState` enum lives in the challenges model, outside the
available sources. -/
inductive ChallengeState where
  | PENDING
  | COMPLETED
  | EXPIRED
deriving DecidableEq, Repr

/-- An HTTP-style categorized error, as produced by
`Trpc.handleStatus(status, message)`. -/
structure ApiErr where
  status : Nat
  message : String
deriving DecidableEq, Repr

/-- ASCII lowercasing of an address string, character by character (the model
of `toLowerCase`); a direct list map is used so that concrete instances reduce
in the kernel. -/
def strToLower (s : String) : String :=
  String.mk (s.data.map Char.toLower)

/-- The keccak-derived per-character uppercase flags used by the EIP-55
checksum, abstracted as a function of the lowercased address. -/
abbrev Keccak := String → Nat → Bool

/-- Uppercase exactly the characters whose flag is set. -/
def applyChecksumFlags (flags : Nat → Bool) (s : String) : String :=
  String.mk (s.data.enum.map fun p => if flags p.1 then p.2.toUpper else p.2)

/-- Model of the `getAddress` function of viem: lowercase the address, then
apply the checksum capitalization derived from the keccak hash of the
lowercased form.  The hash is a parameter; all that matters for the claims is
that the output depends only on the lowercased input. -/
def getAddress (k : Keccak) (a : String) : String :=
  applyChecksumFlags (k (strToLower a)) (strToLower a)

/-- Modelled from the spec: `addressEqualityCheck` (imported from `@/utils`,
outside the available sources) is case-insensitive, checksum-insensitive
address equality. -/
def addressEqualityCheck (a b : String) : Bool :=
  strToLower a == strToLower b

/-- Modelled from the spec: `generateChallenge` (imported from `@/utils`,
outside the available sources) derives the human-readable challenge message
deterministically from the deployer address alone. -/
def generateChallenge (address : String) : String :=
  "please sign this message to verify ownership of " ++ address

/-- A row of the `contracts` table, from `contracts.ts`. -/
structure Contract where
  createdAt : Nat
  updatedAt : Nat
  id : Nat
  entityId : Nat
  chainId : Nat
  appId : Nat
  name : Option String
  contractAddress : String
  deployerAddress : String
  deploymentTxHash : String
  state : ContractState
deriving DecidableEq, Repr

/-- The insertable projection of a contract row (`InsertContract`): the
database supplies `id`, `createdAt` and `updatedAt`. -/
structure InsertContract where
  entityId : Nat
  chainId : Nat
  appId : Nat
  contractAddress : String
  deployerAddress : String
  deploymentTxHash : String
  state : ContractState
deriving DecidableEq, Repr

/-- Modelled from the spec: a verification challenge row, tied to a contract
and its deployer address, with a time-bounded validity; the challenges model
is outside the available sources. -/
structure Challenge where
  id : Nat
  entityId : Nat
  contractId : Nat
  address : String
  chainId : Nat
  state : ChallengeState
  createdAt : Nat
deriving DecidableEq, Repr

/-- Modelled from the spec: the insertable projection of a challenge row; the
database supplies `id` and `createdAt`. -/
structure InsertChallenge where
  entityId : Nat
  contractId : Nat
  address : String
  chainId : Nat
  state : ChallengeState
deriving DecidableEq, Repr

/-- Modelled from the spec: the deployment transaction record, linked one to
one with a contract; the transactions model is outside the available
sources. -/
structure DbTransaction where
  entityId : Nat
  chainId : Nat
  contractId : Nat
  deployerAddress : String
  deploymentTxHash : String
  deploymentTimestamp : Nat
deriving DecidableEq, Repr

/-- The relational store visible to the contracts route. -/
structure DB where
  contracts : List Contract
  challenges : List Challenge
  transactions : List DbTransaction
deriving DecidableEq, Repr

/-- `getActiveContract`: the first non-DELETED contract matching the id,
scoped to the entity (`results[0] || null`). -/
def getActiveContract (db : DB) (contractId entityId : Nat) : Option Contract :=
  (db.contracts.filter fun c =>
    decide (c.id = contractId ∧ c.entityId = entityId ∧
      c.state ≠ ContractState.DELETED)).head?

/-- `getContractByAddressAndChainId`: exact match including DELETED rows; the
queried address is checksum-normalized before comparison. -/
def getContractByAddressAndChainId (k : Keccak) (db : DB)
    (contractAddress : String) (chainId entityId : Nat) : Option Contract :=
  (db.contracts.filter fun c =>
    decide (c.entityId = entityId ∧
      c.contractAddress = getAddress k contractAddress ∧
      c.chainId = chainId)).head?

/-- `hasAlreadyVerifiedDeployer`: whether some VERIFIED contract of this
entity already used this (checksum-normalized) deployer address. -/
def hasAlreadyVerifiedDeployer (k : Keccak) (db : DB) (entityId : Nat)
    (deployerAddress : String) : Bool :=
  !(db.contracts.filter fun c =>
    decide (c.entityId = entityId ∧ c.state = ContractState.VERIFIED ∧
      c.deployerAddress = getAddress k deployerAddress)).isEmpty

/-- `insertContract`: checksum-normalizes both addresses, inserts, returns the
row; `now` and `freshId` stand for the database-generated timestamp and id. -/
def insertContract (k : Keccak) (now freshId : Nat) (db : DB)
    (c : InsertContract) : DB × Contract :=
  let row : Contract :=
    { createdAt := now, updatedAt := now, id := freshId,
      entityId := c.entityId, chainId := c.chainId, appId := c.appId,
      name := none,
      contractAddress := getAddress k c.contractAddress,
      deployerAddress := getAddress k c.deployerAddress,
      deploymentTxHash := c.deploymentTxHash, state := c.state }
  ({ db with contracts := db.contracts ++ [row] }, row)

/-- `restoreDeletedContract`: reassigns `appId` and `state` and bumps
`updatedAt` on every row whose `id` matches; note that the where-clause of the
source filters on `id` alone and the operation receives no `entityId`. -/
def restoreDeletedContract (now : Nat) (db : DB) (contractId appId : Nat)
    (state : ContractState) : DB × Option Contract :=
  let updated := db.contracts.map fun c =>
    if c.id = contractId then
      { c with state := state, appId := appId, updatedAt := now } else c
  ({ db with contracts := updated },
   (updated.filter fun c => decide (c.id = contractId)).head?)

/-- `verifyContract`: sets state VERIFIED on the rows matching both `entityId`
and `id`. -/
def verifyContract (now : Nat) (db : DB) (entityId contractId : Nat) :
    DB × Option Contract :=
  let updated := db.contracts.map fun c =>
    if c.entityId = entityId ∧ c.id = contractId then
      { c with state := ContractState.VERIFIED, updatedAt := now } else c
  ({ db with contracts := updated },
   (updated.filter fun c =>
     decide (c.entityId = entityId ∧ c.id = contractId)).head?)

/-- `deleteContract`: sets state DELETED on the rows matching both `entityId`
and `id`. -/
def deleteContract (now : Nat) (db : DB) (entityId contractId : Nat) :
    DB × Option Contract :=
  let updated := db.contracts.map fun c =>
    if c.entityId = entityId ∧ c.id = contractId then
      { c with state := ContractState.DELETED, updatedAt := now } else c
  ({ db with contracts := updated },
   (updated.filter fun c =>
     decide (c.entityId = entityId ∧ c.id = contractId)).head?)

/-- Modelled from the spec: `getChallengeByChallengeId(entityId, challengeId)`
of the challenge store — an entity-scoped lookup of a challenge by id, with no
filter on its state. -/
def getChallengeByChallengeId (db : DB) (entityId challengeId : Nat) :
    Option Challenge :=
  (db.challenges.filter fun ch =>
    decide (ch.entityId = entityId ∧ ch.id = challengeId)).head?

/-- Modelled from the spec: `getUnexpiredChallenge(entityId, contractId)` of
the challenge store — a challenge for this contract that is not already
completed or expired and was created within the validity `window`, evaluated
at read time `now`. -/
def getUnexpiredChallenge (now window : Nat) (db : DB)
    (entityId contractId : Nat) : Option Challenge :=
  (db.challenges.filter fun ch =>
    decide (ch.entityId = entityId ∧ ch.contractId = contractId ∧
      ch.state = ChallengeState.PENDING ∧ now < ch.createdAt + window)).head?

/-- Modelled from the spec: `insertChallenge` of the challenge store inserts a
new challenge row and returns it. -/
def insertChallenge (now freshId : Nat) (db : DB) (c : InsertChallenge) :
    DB × Challenge :=
  let row : Challenge :=
    { id := freshId, entityId := c.entityId, contractId := c.contractId,
      address := c.address, chainId := c.chainId, state := c.state,
      createdAt := now }
  ({ db with challenges := db.challenges ++ [row] }, row)

/-- Modelled from the spec: `completeChallenge(entityId, challengeId)` of the
challenge store sets the state of the matching challenge to COMPLETED. -/
def completeChallenge (db : DB) (entityId challengeId : Nat) : DB :=
  { db with challenges := db.challenges.map fun ch =>
      if ch.entityId = entityId ∧ ch.id = challengeId then
        { ch with state := ChallengeState.COMPLETED } else ch }

/-- Modelled from the spec: `insertTransaction` of the transactions model
appends the deployment transaction record. -/
def insertTransaction (db : DB) (t : DbTransaction) : DB :=
  { db with transactions := db.transactions ++ [t] }

/-- Modelled from the spec:
`viemContractDeploymentTransactionToDbTransaction` builds the deployment
transaction record (deployer, hash, chain id, contract id, deployment
timestamp) from the fetched chain data. -/
def viemContractDeploymentTransactionToDbTransaction (receipt_from : String)
    (txHash : String) (entityId chainId contractId deploymentTimestamp : Nat) :
    DbTransaction :=
  { entityId := entityId, chainId := chainId, contractId := contractId,
    deployerAddress := receipt_from, deploymentTxHash := txHash,
    deploymentTimestamp := deploymentTimestamp }

/-- One internal call of a transaction trace, with its call `type` (such as
CREATE2) and target address `to_` (named `to` in the source, which is a
reserved word here). -/
structure TraceCall where
  type : String
  to_ : String
deriving DecidableEq, Repr

/-- A transaction trace; `calls` is the optional list of internal calls. -/
structure TracedTransaction where
  calls : Option (List TraceCall)
deriving DecidableEq, Repr

/-- A transaction receipt; `contractAddress` is null when the deployment went
through a factory, and `from_` is the sending address (named `from` in the
source, which is a reserved word here). -/
structure TxReceipt where
  from_ : String
  contractAddress : Option String
deriving DecidableEq, Repr

/-- The fetched deployment transaction. -/
structure DeploymentTx where
  hash : String
  blockHash : String
deriving DecidableEq, Repr

/-- The block containing the deployment transaction. -/
structure Block where
  timestamp : Nat
deriving DecidableEq, Repr

/-- The per-chain RPC client, specialised to the one transaction hash a
request is about: each call either fails (`Except.error`) or returns its
payload; `traceTransaction` may also return null. -/
structure PublicClient where
  getTransaction : Except Unit DeploymentTx
  getTransactionReceipt : Except Unit TxReceipt
  getBlock : Except Unit Block
  traceTransaction : Except Unit (Option TracedTransaction)

/-- The input record of the `createContract` route. -/
structure CreateContractInput where
  contractAddress : String
  deploymentTxHash : String
  deployerAddress : String
  chainId : Nat
  appId : Nat
deriving DecidableEq, Repr

/-- Resolution of the created-contract address in `createContract`: prefer the
direct `contractAddress` field of the receipt; otherwise trace the transaction
(a trace failure is a 500) and accept the target of the single internal call
when the trace has exactly one call and it is of type CREATE2; every other
shape rejects with the 400 below. -/
def resolveContractAddress (pc : PublicClient) (receipt : TxReceipt) :
    Except ApiErr String :=
  match receipt.contractAddress with
  | some a => Except.ok a
  | none =>
    match pc.traceTransaction with
    | Except.error _ => Except.error ⟨500, "error fetching deployment transaction"⟩
    | Except.ok traced =>
      match traced with
      | some t =>
        match t.calls with
        | some [c] =>
          if c.type = "CREATE2" then Except.ok c.to_
          else Except.error
            ⟨400, "the provided deployment transaction did not create a contract"⟩
        | _ => Except.error
            ⟨400, "the provided deployment transaction did not create a contract"⟩
      | none => Except.error
          ⟨400, "the provided deployment transaction did not create a contract"⟩

/-- The body of the database transaction of `createContract`: auto-trust
check, then duplicate / restore / fresh-insert decision; an active duplicate
throws the in-transaction 400. -/
def createContractTxnBody (k : Keccak) (now freshId entityId : Nat)
    (input : CreateContractInput)
    (inputContractAddress inputDeployerAddress : String)
    (deploymentTx : DeploymentTx) (receipt : TxReceipt) (block : Block)
    (db : DB) : Except ApiErr (DB × Option Contract) :=
  let isDeployerVerified := hasAlreadyVerifiedDeployer k db entityId inputDeployerAddress
  match getContractByAddressAndChainId k db inputContractAddress input.chainId entityId with
  | some existingContract =>
    if existingContract.state ≠ ContractState.DELETED then
      Except.error ⟨400, "contract already exists"⟩
    else
      let res := restoreDeletedContract now db existingContract.id input.appId
        (if isDeployerVerified then ContractState.VERIFIED
         else ContractState.NOT_VERIFIED)
      Except.ok (res.1, res.2)
  | none =>
    let res := insertContract k now freshId db
      { entityId := entityId, chainId := input.chainId, appId := input.appId,
        contractAddress := inputContractAddress,
        deployerAddress := inputDeployerAddress,
        deploymentTxHash := input.deploymentTxHash,
        state := if isDeployerVerified then ContractState.VERIFIED
                 else ContractState.NOT_VERIFIED }
    let db2 := insertTransaction res.1
      (viemContractDeploymentTransactionToDbTransaction receipt.from_
        deploymentTx.hash entityId input.chainId res.2.id block.timestamp)
    Except.ok (db2, some res.2)

/-- The `createContract` route: chain-support check, transaction, receipt and
block fetch (any fetch failure answers 400), created-address resolution,
deployer and contract address equality checks, then the registration
transaction; any error thrown inside the transaction — the 400 for an active
duplicate included — is caught by the catch attached to the transaction and
re-raised as 500 with message `error creating contract`. -/
def createContract (k : Keccak) (clients : Nat → Option PublicClient)
    (now freshId entityId : Nat) (input : CreateContractInput) (db : DB) :
    DB × Except ApiErr (Option Contract) :=
  let inputContractAddress := getAddress k input.contractAddress
  let inputDeployerAddress := getAddress k input.deployerAddress
  match clients input.chainId with
  | none => (db, Except.error ⟨400, "chain not supported"⟩)
  | some publicClient =>
    match publicClient.getTransaction with
    | Except.error _ =>
      (db, Except.error ⟨400, "error fetching deployment transaction"⟩)
    | Except.ok deploymentTx =>
      match publicClient.getTransactionReceipt with
      | Except.error _ =>
        (db, Except.error ⟨400, "error fetching deployment transaction"⟩)
      | Except.ok deploymentTxReceipt =>
        match publicClient.getBlock with
        | Except.error _ =>
          (db, Except.error ⟨400, "error fetching deployment transaction"⟩)
        | Except.ok deploymentBlock =>
          match resolveContractAddress publicClient deploymentTxReceipt with
          | Except.error e => (db, Except.error e)
          | Except.ok txContractAddress =>
            if !(addressEqualityCheck deploymentTxReceipt.from_ inputDeployerAddress) then
              (db, Except.error
                ⟨400, "deployer address does not match deployment transaction"⟩)
            else if !(addressEqualityCheck txContractAddress inputContractAddress) then
              (db, Except.error
                ⟨400, "contract was not created by deployment transaction"⟩)
            else
              match createContractTxnBody k now freshId entityId input
                  inputContractAddress inputDeployerAddress deploymentTx
                  deploymentTxReceipt deploymentBlock db with
              | Except.error _ => (db, Except.error ⟨500, "error creating contract"⟩)
              | Except.ok (db2, result) => (db2, Except.ok result)

/-- The `startVerification` route: entity-scoped active-contract lookup,
already-verified rejection, idempotent return of an unexpired challenge, and
otherwise insertion of a fresh PENDING challenge bound to the deployer address
and chain of the contract; the returned string is the deterministic challenge
message. -/
def startVerification (now window freshId entityId contractId : Nat)
    (db : DB) : DB × Except ApiErr (Challenge × String) :=
  match getActiveContract db contractId entityId with
  | none => (db, Except.error ⟨400, "contract does not exist"⟩)
  | some contract =>
    if contract.state = ContractState.VERIFIED then
      (db, Except.error ⟨400, "contract is already verified"⟩)
    else
      let challengeToComplete := generateChallenge contract.deployerAddress
      match getUnexpiredChallenge now window db entityId contractId with
      | some challenge => (db, Except.ok (challenge, challengeToComplete))
      | none =>
        let res := insertChallenge now freshId db
          { entityId := entityId, contractId := contractId,
            address := contract.deployerAddress, chainId := contract.chainId,
            state := ChallengeState.PENDING }
        (res.1, Except.ok (res.2, challengeToComplete))

/-- The `completeVerification` route.  `chainSupported` abstracts the
per-chain client map, `verifyMessage address message signature` abstracts the
chain signature check, and `oracle i` tells whether the i-th statement inside
the database transaction fails, in which case the transaction rolls back
entirely and the route answers 500. -/
def completeVerification (chainSupported : Nat → Bool)
    (verifyMessage : String → String → String → Bool) (oracle : Nat → Bool)
    (now entityId challengeId : Nat) (signature : String) (db : DB) :
    DB × Except ApiErr Bool :=
  match getChallengeByChallengeId db entityId challengeId with
  | none => (db, Except.error ⟨400, "challenge does not exist or is expired"⟩)
  | some challenge =>
    if challenge.state = ChallengeState.EXPIRED then
      (db, Except.error ⟨400, "challenge does not exist or is expired"⟩)
    else if !(chainSupported challenge.chainId) then
      (db, Except.error
        ⟨500, "challenge is on invalid chain id: " ++ toString challenge.chainId⟩)
    else if !(verifyMessage challenge.address
        (generateChallenge challenge.address) signature) then
      (db, Except.error ⟨400, "challenge was not completed successfully"⟩)
    else if oracle 0 then
      (db, Except.error ⟨500, "server failed to mark challenge as complete"⟩)
    else
      let db1 := completeChallenge db entityId challengeId
      if oracle 1 then
        (db, Except.error ⟨500, "server failed to mark challenge as complete"⟩)
      else
        let db2 := (verifyContract now db1 entityId challenge.contractId).1
        (db2, Except.ok true)

/-- The `deleteContract` route: entity-scoped soft delete; `dbFails` abstracts
a database failure, the only error path — the route answers success whether or
not an owned row matched. -/
def deleteContractController (dbFails : Bool) (now entityId contractId : Nat)
    (db : DB) : DB × Except ApiErr Bool :=
  if dbFails then (db, Except.error ⟨500, "error deleting contract"⟩)
  else ((deleteContract now db entityId contractId).1, Except.ok true)

/-- C6 counterexample: the claim says every Contract Store mutation restricts
its update to rows owned by the calling entityId, but `restoreDeletedContract`
receives no entityId and its where-clause matches on `id` alone, so a restore
issued on behalf of entity 1 changes the row of entity 2 below (its state
moves from DELETED to NOT_VERIFIED and its appId is reassigned). -/
theorem restoreDeletedContract_cross_entity :
    (restoreDeletedContract 5
        ⟨[⟨0, 0, 10, 2, 1, 7, none, "0xabc", "0xdef", "0xhash",
            ContractState.DELETED⟩], [], []⟩
        10 8 ContractState.NOT_VERIFIED).1.contracts
      = [⟨0, 5, 10, 2, 1, 8, none, "0xabc", "0xdef", "0xhash",
            ContractState.NOT_VERIFIED⟩]
    ∧ (2 : Nat) ≠ 1 := ⟨rfl, by decide⟩

/-- C6 amended: `verifyContract` and `deleteContract` scope their updates by
both entityId and contract id, so a row owned by a different entity is never
changed by them; `restoreDeletedContract` filters on contract id alone (it
takes no entityId), so only rows with a different id are guaranteed
unchanged. -/
theorem contractStore_mutation_scoping (now entityId contractId rid appId : Nat)
    (st : ContractState) (db : DB) (r : Contract) (hr : r ∈ db.contracts)
    (hent : r.entityId ≠ entityId) (hid : r.id ≠ rid) :
    r ∈ (verifyContract now db entityId contractId).1.contracts ∧
    r ∈ (deleteContract now db entityId contractId).1.contracts ∧
    r ∈ (restoreDeletedContract now db rid appId st).1.contracts := by
  refine ⟨?_, ?_, ?_⟩
  · exact List.mem_map.mpr ⟨r, hr, by simp [hent]⟩
  · exact List.mem_map.mpr ⟨r, hr, by simp [hent]⟩
  · exact List.mem_map.mpr ⟨r, hr, by simp [hid]⟩

/-- Witness for the C6 amended theorem at a concrete database: the row of
entity 2 survives, unchanged, a verify, a delete and a restore issued for
entity 1 and an unrelated contract id. -/
theorem contractStore_mutation_scoping_witness :
    (⟨0, 0, 4, 2, 1, 6, none, "0xa", "0xd", "0xh",
        ContractState.NOT_VERIFIED⟩ : Contract) ∈
      (verifyContract 5
        ⟨[⟨0, 0, 4, 2, 1, 6, none, "0xa", "0xd", "0xh",
            ContractState.NOT_VERIFIED⟩], [], []⟩ 1 4).1.contracts ∧
    (⟨0, 0, 4, 2, 1, 6, none, "0xa", "0xd", "0xh",
        ContractState.NOT_VERIFIED⟩ : Contract) ∈
      (deleteContract 5
        ⟨[⟨0, 0, 4, 2, 1, 6, none, "0xa", "0xd", "0xh",
            ContractState.NOT_VERIFIED⟩], [], []⟩ 1 4).1.contracts ∧
    (⟨0, 0, 4, 2, 1, 6, none, "0xa", "0xd", "0xh",
        ContractState.NOT_VERIFIED⟩ : Contract) ∈
      (restoreDeletedContract 5
        ⟨[⟨0, 0, 4, 2, 1, 6, none, "0xa", "0xd", "0xh",
            ContractState.NOT_VERIFIED⟩], [], []⟩ 9 7 ContractState.VERIFIED).1.contracts :=
  contractStore_mutation_scoping 5 1 4 9 7 ContractState.VERIFIED
    ⟨[⟨0, 0, 4, 2, 1, 6, none, "0xa", "0xd", "0xh",
        ContractState.NOT_VERIFIED⟩], [], []⟩
    ⟨0, 0, 4, 2, 1, 6, none, "0xa", "0xd", "0xh", ContractState.NOT_VERIFIED⟩
    (by simp) (by decide) (by decide)

/-- C10: when no contract owned by the calling entity matches the given id,
the underlying update of `deleteContract` affects zero rows and returns no
row, no not-found error is raised, the database is unchanged, and the route
still answers success. -/
theorem deleteContract_no_match_success (now entityId contractId : Nat) (db : DB)
    (hno : ∀ r ∈ db.contracts, ¬ (r.entityId = entityId ∧ r.id = contractId)) :
    deleteContractController false now entityId contractId db = (db, Except.ok true) ∧
    (deleteContract now db entityId contractId).2 = none := by
  have hmap : (db.contracts.map fun c =>
      if c.entityId = entityId ∧ c.id = contractId then
        { c with state := ContractState.DELETED, updatedAt := now } else c)
      = db.contracts := by
    conv_rhs => rw [← List.map_id db.contracts]
    exact List.map_congr_left fun c hc => if_neg (hno c hc)
  have hdel : (deleteContract now db entityId contractId).1 = db := by
    simp only [deleteContract]
    rw [hmap]
  have hfil : (db.contracts.filter fun c =>
      decide (c.entityId = entityId ∧ c.id = contractId)) = [] :=
    List.filter_eq_nil_iff.mpr fun c hc => by simpa using hno c hc
  refine ⟨?_, ?_⟩
  · simp only [deleteContractController, Bool.false_eq_true, if_false, hdel]
  · simp only [deleteContract]
    rw [hmap, hfil]
    rfl

/-- Witness for the C10 theorem: deleting contract id 99 for entity 1 over a
database holding only contract id 3 of entity 2 answers success and changes
nothing. -/
theorem deleteContract_no_match_success_witness :
    deleteContractController false 5 1 99
        ⟨[⟨0, 0, 3, 2, 1, 6, none, "0xa", "0xd", "0xh",
            ContractState.NOT_VERIFIED⟩], [], []⟩
      = (⟨[⟨0, 0, 3, 2, 1, 6, none, "0xa", "0xd", "0xh",
            ContractState.NOT_VERIFIED⟩], [], []⟩, Except.ok true) ∧
    (deleteContract 5
        ⟨[⟨0, 0, 3, 2, 1, 6, none, "0xa", "0xd", "0xh",
            ContractState.NOT_VERIFIED⟩], [], []⟩ 1 99).2 = none :=
  deleteContract_no_match_success 5 1 99
    ⟨[⟨0, 0, 3, 2, 1, 6, none, "0xa", "0xd", "0xh",
        ContractState.NOT_VERIFIED⟩], [], []⟩
    (by decide)

/-- C5: a `completeVerification` call whose signature check returns false is
rejected with the client error 400 `challenge was not completed successfully`
(not a server error), and the database — the state of the challenge and of
every contract included — is returned unchanged. -/
theorem completeVerification_bad_signature (chainSupported : Nat → Bool)
    (verifyMessage : String → String → String → Bool) (oracle : Nat → Bool)
    (now entityId challengeId : Nat) (signature : String) (db : DB)
    (ch : Challenge)
    (hch : getChallengeByChallengeId db entityId challengeId = some ch)
    (hstate : ch.state ≠ ChallengeState.EXPIRED)
    (hchain : chainSupported ch.chainId = true)
    (hsig : verifyMessage ch.address (generateChallenge ch.address) signature
      = false) :
    completeVerification chainSupported verifyMessage oracle now entityId
        challengeId signature db
      = (db, Except.error ⟨400, "challenge was not completed successfully"⟩) := by
  simp only [completeVerification, hch]
  simp [hstate, hchain, hsig]

/-- Witness for the C5 theorem: a wrong signature on a PENDING challenge of a
supported chain answers 400 and leaves the database untouched. -/
theorem completeVerification_bad_signature_witness :
    completeVerification (fun _ => true) (fun _ _ _ => false) (fun _ => false)
        9 1 5 "sig"
        ⟨[⟨0, 0, 3, 1, 1, 7, none, "0xabc", "0xdef", "0xh",
            ContractState.NOT_VERIFIED⟩],
         [⟨5, 1, 3, "0xdef", 1, ChallengeState.PENDING, 0⟩], []⟩
      = (⟨[⟨0, 0, 3, 1, 1, 7, none, "0xabc", "0xdef", "0xh",
            ContractState.NOT_VERIFIED⟩],
          [⟨5, 1, 3, "0xdef", 1, ChallengeState.PENDING, 0⟩], []⟩,
         Except.error ⟨400, "challenge was not completed successfully"⟩) :=
  completeVerification_bad_signature (fun _ => true) (fun _ _ _ => false)
    (fun _ => false) 9 1 5 "sig"
    ⟨[⟨0, 0, 3, 1, 1, 7, none, "0xabc", "0xdef", "0xh",
        ContractState.NOT_VERIFIED⟩],
     [⟨5, 1, 3, "0xdef", 1, ChallengeState.PENDING, 0⟩], []⟩
    ⟨5, 1, 3, "0xdef", 1, ChallengeState.PENDING, 0⟩
    rfl (by decide) rfl rfl

/-- C9: under a supported chain, a failure of any of the three RPC fetches
(`getTransaction`, `getTransactionReceipt`, `getBlock`) makes `createContract`
answer the 400 deployment-transaction-fetch error with the database unchanged,
whereas a failure of `traceTransaction` (reached when the receipt carries no
direct contract address) answers a 500 server error. -/
theorem createContract_rpc_error_mapping (k : Keccak)
    (clients : Nat → Option PublicClient) (now freshId entityId : Nat)
    (input : CreateContractInput) (db : DB) (pc : PublicClient)
    (hclient : clients input.chainId = some pc) :
    (pc.getTransaction = Except.error () →
      createContract k clients now freshId entityId input db
        = (db, Except.error ⟨400, "error fetching deployment transaction"⟩)) ∧
    (∀ dtx, pc.getTransaction = Except.ok dtx →
      pc.getTransactionReceipt = Except.error () →
      createContract k clients now freshId entityId input db
        = (db, Except.error ⟨400, "error fetching deployment transaction"⟩)) ∧
    (∀ dtx receipt, pc.getTransaction = Except.ok dtx →
      pc.getTransactionReceipt = Except.ok receipt →
      pc.getBlock = Except.error () →
      createContract k clients now freshId entityId input db
        = (db, Except.error ⟨400, "error fetching deployment transaction"⟩)) ∧
    (∀ dtx receipt block, pc.getTransaction = Except.ok dtx →
      pc.getTransactionReceipt = Except.ok receipt →
      pc.getBlock = Except.ok block →
      receipt.contractAddress = none →
      pc.traceTransaction = Except.error () →
      createContract k clients now freshId entityId input db
        = (db, Except.error ⟨500, "error fetching deployment transaction"⟩)) := by
  refine ⟨?_, ?_, ?_, ?_⟩
  · intro htx
    simp only [createContract, hclient, htx]
  · intro dtx htx hrc
    simp only [createContract, hclient, htx, hrc]
  · intro dtx receipt htx hrc hbl
    simp only [createContract, hclient, htx, hrc, hbl]
  · intro dtx receipt block htx hrc hbl hca htr
    simp only [createContract, resolveContractAddress, hclient, htx, hrc, hbl,
      hca, htr]

/-- Witness for the C9 theorem: a client whose three fetches fail makes
`createContract` answer 400, and one that fetches fine but cannot trace a
receipt without contract address answers 500. -/
theorem createContract_rpc_error_mapping_witness :
    ((⟨Except.error (), Except.error (), Except.error (),
        Except.error ()⟩ : PublicClient).getTransaction = Except.error () →
      createContract (fun _ _ => false)
          (fun _ => some ⟨Except.error (), Except.error (), Except.error (),
            Except.error ()⟩) 5 9 1 ⟨"0xa", "0xh", "0xd", 1, 7⟩ ⟨[], [], []⟩
        = (⟨[], [], []⟩,
           Except.error ⟨400, "error fetching deployment transaction"⟩)) ∧
    (∀ dtx, (⟨Except.error (), Except.error (), Except.error (),
        Except.error ()⟩ : PublicClient).getTransaction = Except.ok dtx →
      (⟨Except.error (), Except.error (), Except.error (),
        Except.error ()⟩ : PublicClient).getTransactionReceipt = Except.error () →
      createContract (fun _ _ => false)
          (fun _ => some ⟨Except.error (), Except.error (), Except.error (),
            Except.error ()⟩) 5 9 1 ⟨"0xa", "0xh", "0xd", 1, 7⟩ ⟨[], [], []⟩
        = (⟨[], [], []⟩,
           Except.error ⟨400, "error fetching deployment transaction"⟩)) ∧
    (∀ dtx receipt, (⟨Except.error (), Except.error (), Except.error (),
        Except.error ()⟩ : PublicClient).getTransaction = Except.ok dtx →
      (⟨Except.error (), Except.error (), Except.error (),
        Except.error ()⟩ : PublicClient).getTransactionReceipt = Except.ok receipt →
      (⟨Except.error (), Except.error (), Except.error (),
        Except.error ()⟩ : PublicClient).getBlock = Except.error () →
      createContract (fun _ _ => false)
          (fun _ => some ⟨Except.error (), Except.error (), Except.error (),
            Except.error ()⟩) 5 9 1 ⟨"0xa", "0xh", "0xd", 1, 7⟩ ⟨[], [], []⟩
        = (⟨[], [], []⟩,
           Except.error ⟨400, "error fetching deployment transaction"⟩)) ∧
    (∀ dtx receipt block, (⟨Except.error (), Except.error (), Except.error (),
        Except.error ()⟩ : PublicClient).getTransaction = Except.ok dtx →
      (⟨Except.error (), Except.error (), Except.error (),
        Except.error ()⟩ : PublicClient).getTransactionReceipt = Except.ok receipt →
      (⟨Except.error (), Except.error (), Except.error (),
        Except.error ()⟩ : PublicClient).getBlock = Except.ok block →
      receipt.contractAddress = none →
      (⟨Except.error (), Except.error (), Except.error (),
        Except.error ()⟩ : PublicClient).traceTransaction = Except.error () →
      createContract (fun _ _ => false)
          (fun _ => some ⟨Except.error (), Except.error (), Except.error (),
            Except.error ()⟩) 5 9 1 ⟨"0xa", "0xh", "0xd", 1, 7⟩ ⟨[], [], []⟩
        = (⟨[], [], []⟩,
           Except.error ⟨500, "error fetching deployment transaction"⟩)) :=
  createContract_rpc_error_mapping (fun _ _ => false)
    (fun _ => some ⟨Except.error (), Except.error (), Except.error (),
      Except.error ()⟩) 5 9 1 ⟨"0xa", "0xh", "0xd", 1, 7⟩ ⟨[], [], []⟩
    ⟨Except.error (), Except.error (), Except.error (), Except.error ()⟩ rfl

/-- C3: when the receipt has no direct contract address and the trace call
succeeds, the created-contract address is resolved from the trace exactly when
the trace shows one single internal call of type CREATE2 — the resolved
address being the target of that call — and every other trace shape (null
trace, missing or empty call list, several calls, a single call of another
type) makes the resolution fail and `createContract` reject with 400
`the provided deployment transaction did not create a contract`. -/
theorem resolveContractAddress_create2_iff (k : Keccak)
    (clients : Nat → Option PublicClient) (now freshId entityId : Nat)
    (input : CreateContractInput) (db : DB) (pc : PublicClient)
    (receipt : TxReceipt) (dtx : DeploymentTx) (block : Block)
    (traced : Option TracedTransaction)
    (hrec : receipt.contractAddress = none)
    (htrace : pc.traceTransaction = Except.ok traced)
    (hclient : clients input.chainId = some pc)
    (htx : pc.getTransaction = Except.ok dtx)
    (hrc : pc.getTransactionReceipt = Except.ok receipt)
    (hbl : pc.getBlock = Except.ok block) :
    (∀ a, resolveContractAddress pc receipt = Except.ok a ↔
      ∃ t c, traced = some t ∧ t.calls = some [c] ∧ c.type = "CREATE2" ∧
        a = c.to_) ∧
    (∀ e, resolveContractAddress pc receipt = Except.error e →
      e = ⟨400, "the provided deployment transaction did not create a contract"⟩ ∧
      createContract k clients now freshId entityId input db
        = (db, Except.error e)) := by
  have hprop : ∀ e, resolveContractAddress pc receipt = Except.error e →
      createContract k clients now freshId entityId input db
        = (db, Except.error e) := by
    intro e he
    simp only [createContract, hclient, htx, hrc, hbl, he]
  refine ⟨?_, ?_⟩
  · intro a
    simp only [resolveContractAddress, hrec, htrace]
    cases traced with
    | none => simp
    | some t =>
      cases hcalls : t.calls with
      | none => simp [hcalls]
      | some l =>
        cases l with
        | nil => simp [hcalls]
        | cons c rest =>
          cases rest with
          | nil =>
            by_cases hty : c.type = "CREATE2"
            · simp only [hcalls, hty, if_true]
              constructor
              · intro h
                exact ⟨t, c, rfl, hcalls, hty, (Except.ok.inj h).symm⟩
              · rintro ⟨t2, c2, ht2, hc2, hty2, ha⟩
                cases ht2
                rw [hcalls] at hc2
                cases hc2
                rw [ha]
            · simp [hcalls, hty]
          | cons c2 r2 => simp [hcalls]
  · intro e he
    refine ⟨?_, hprop e he⟩
    cases traced with
    | none =>
      have hres : resolveContractAddress pc receipt = Except.error
          ⟨400, "the provided deployment transaction did not create a contract"⟩ := by
        simp [resolveContractAddress, hrec, htrace]
      exact (Except.error.inj (hres.symm.trans he)).symm
    | some t =>
      cases hcalls : t.calls with
      | none =>
        have hres : resolveContractAddress pc receipt = Except.error
            ⟨400, "the provided deployment transaction did not create a contract"⟩ := by
          simp [resolveContractAddress, hrec, htrace, hcalls]
        exact (Except.error.inj (hres.symm.trans he)).symm
      | some l =>
        cases l with
        | nil =>
          have hres : resolveContractAddress pc receipt = Except.error
              ⟨400, "the provided deployment transaction did not create a contract"⟩ := by
            simp [resolveContractAddress, hrec, htrace, hcalls]
          exact (Except.error.inj (hres.symm.trans he)).symm
        | cons c rest =>
          cases rest with
          | nil =>
            by_cases hty : c.type = "CREATE2"
            · have hres : resolveContractAddress pc receipt = Except.ok c.to_ := by
                simp [resolveContractAddress, hrec, htrace, hcalls, hty]
              rw [hres] at he
              exact absurd he (by simp)
            · have hres : resolveContractAddress pc receipt = Except.error
                  ⟨400, "the provided deployment transaction did not create a contract"⟩ := by
                simp [resolveContractAddress, hrec, htrace, hcalls, hty]
              exact (Except.error.inj (hres.symm.trans he)).symm
          | cons c2 r2 =>
            have hres : resolveContractAddress pc receipt = Except.error
                ⟨400, "the provided deployment transaction did not create a contract"⟩ := by
              simp [resolveContractAddress, hrec, htrace, hcalls]
            exact (Except.error.inj (hres.symm.trans he)).symm

/-- Witness for the C3 theorem at a concrete client whose trace holds exactly
one CREATE2 call targeting address 0xnew. -/
theorem resolveContractAddress_create2_iff_witness :
    (∀ a, resolveContractAddress
        ⟨Except.ok ⟨"0xh", "0xb"⟩, Except.ok ⟨"0xdef", none⟩, Except.ok ⟨100⟩,
          Except.ok (some ⟨some [⟨"CREATE2", "0xnew"⟩]⟩)⟩
        ⟨"0xdef", none⟩ = Except.ok a ↔
      ∃ t c, (some (⟨some [⟨"CREATE2", "0xnew"⟩]⟩ : TracedTransaction)) = some t ∧
        t.calls = some [c] ∧ c.type = "CREATE2" ∧ a = c.to_) ∧
    (∀ e, resolveContractAddress
        ⟨Except.ok ⟨"0xh", "0xb"⟩, Except.ok ⟨"0xdef", none⟩, Except.ok ⟨100⟩,
          Except.ok (some ⟨some [⟨"CREATE2", "0xnew"⟩]⟩)⟩
        ⟨"0xdef", none⟩ = Except.error e →
      e = ⟨400, "the provided deployment transaction did not create a contract"⟩ ∧
      createContract (fun _ _ => false)
          (fun _ => some ⟨Except.ok ⟨"0xh", "0xb"⟩, Except.ok ⟨"0xdef", none⟩,
            Except.ok ⟨100⟩, Except.ok (some ⟨some [⟨"CREATE2", "0xnew"⟩]⟩)⟩)
          5 9 1 ⟨"0xnew", "0xh", "0xdef", 1, 7⟩ ⟨[], [], []⟩
        = (⟨[], [], []⟩, Except.error e)) :=
  resolveContractAddress_create2_iff (fun _ _ => false)
    (fun _ => some ⟨Except.ok ⟨"0xh", "0xb"⟩, Except.ok ⟨"0xdef", none⟩,
      Except.ok ⟨100⟩, Except.ok (some ⟨some [⟨"CREATE2", "0xnew"⟩]⟩)⟩)
    5 9 1 ⟨"0xnew", "0xh", "0xdef", 1, 7⟩ ⟨[], [], []⟩
    ⟨Except.ok ⟨"0xh", "0xb"⟩, Except.ok ⟨"0xdef", none⟩, Except.ok ⟨100⟩,
      Except.ok (some ⟨some [⟨"CREATE2", "0xnew"⟩]⟩)⟩
    ⟨"0xdef", none⟩ ⟨"0xh", "0xb"⟩ ⟨100⟩
    (some ⟨some [⟨"CREATE2", "0xnew"⟩]⟩)
    rfl rfl rfl rfl rfl rfl

/-- C7: while an unexpired PENDING challenge exists for a contract (active and
not yet verified), `startVerification` returns exactly that challenge with the
database unchanged — no second challenge is inserted — and only when no
unexpired challenge exists does it insert a fresh PENDING challenge bound to
the deployer address and chain of the contract. -/
theorem startVerification_idempotent (now window freshId entityId contractId : Nat)
    (db : DB) (contract : Contract)
    (hc : getActiveContract db contractId entityId = some contract)
    (hnv : contract.state ≠ ContractState.VERIFIED) :
    (∀ ch, getUnexpiredChallenge now window db entityId contractId = some ch →
      startVerification now window freshId entityId contractId db
        = (db, Except.ok (ch, generateChallenge contract.deployerAddress))) ∧
    (getUnexpiredChallenge now window db entityId contractId = none →
      startVerification now window freshId entityId contractId db
        = ({ db with challenges := db.challenges ++
              [⟨freshId, entityId, contractId, contract.deployerAddress,
                contract.chainId, ChallengeState.PENDING, now⟩] },
           Except.ok (⟨freshId, entityId, contractId, contract.deployerAddress,
              contract.chainId, ChallengeState.PENDING, now⟩,
             generateChallenge contract.deployerAddress))) := by
  refine ⟨?_, ?_⟩
  · intro ch hch
    simp only [startVerification, hc, hch]
    simp [hnv]
  · intro hch
    simp only [startVerification, hc, hch]
    simp [hnv, insertChallenge]

/-- Witness for the C7 theorem: with a PENDING challenge created at time 0,
window 100 and read time 9, a repeated `startVerification` answers that same
challenge (id 5) and leaves the database as it is. -/
theorem startVerification_idempotent_witness :
    (∀ ch, getUnexpiredChallenge 9 100
        ⟨[⟨0, 0, 3, 1, 1, 7, none, "0xabc", "0xdef", "0xh",
            ContractState.NOT_VERIFIED⟩],
         [⟨5, 1, 3, "0xdef", 1, ChallengeState.PENDING, 0⟩], []⟩ 1 3 = some ch →
      startVerification 9 100 11 1 3
          ⟨[⟨0, 0, 3, 1, 1, 7, none, "0xabc", "0xdef", "0xh",
              ContractState.NOT_VERIFIED⟩],
           [⟨5, 1, 3, "0xdef", 1, ChallengeState.PENDING, 0⟩], []⟩
        = (⟨[⟨0, 0, 3, 1, 1, 7, none, "0xabc", "0xdef", "0xh",
              ContractState.NOT_VERIFIED⟩],
            [⟨5, 1, 3, "0xdef", 1, ChallengeState.PENDING, 0⟩], []⟩,
           Except.ok (ch, generateChallenge "0xdef"))) ∧
    (getUnexpiredChallenge 9 100
        ⟨[⟨0, 0, 3, 1, 1, 7, none, "0xabc", "0xdef", "0xh",
            ContractState.NOT_VERIFIED⟩],
         [⟨5, 1, 3, "0xdef", 1, ChallengeState.PENDING, 0⟩], []⟩ 1 3 = none →
      startVerification 9 100 11 1 3
          ⟨[⟨0, 0, 3, 1, 1, 7, none, "0xabc", "0xdef", "0xh",
              ContractState.NOT_VERIFIED⟩],
           [⟨5, 1, 3, "0xdef", 1, ChallengeState.PENDING, 0⟩], []⟩
        = (⟨[⟨0, 0, 3, 1, 1, 7, none, "0xabc", "0xdef", "0xh",
              ContractState.NOT_VERIFIED⟩],
            [⟨5, 1, 3, "0xdef", 1, ChallengeState.PENDING, 0⟩,
             ⟨11, 1, 3, "0xdef", 1, ChallengeState.PENDING, 9⟩], []⟩,
           Except.ok (⟨11, 1, 3, "0xdef", 1, ChallengeState.PENDING, 9⟩,
             generateChallenge "0xdef"))) :=
  startVerification_idempotent 9 100 11 1 3
    ⟨[⟨0, 0, 3, 1, 1, 7, none, "0xabc", "0xdef", "0xh",
        ContractState.NOT_VERIFIED⟩],
     [⟨5, 1, 3, "0xdef", 1, ChallengeState.PENDING, 0⟩], []⟩
    ⟨0, 0, 3, 1, 1, 7, none, "0xabc", "0xdef", "0xh",
      ContractState.NOT_VERIFIED⟩
    rfl (by decide)

/-- C8: `insertContract` stores the checksum-normalized (`getAddress`) form of
both the contract and the deployer address; `getAddress` depends only on the
lowercased input, so any letter casing of the same address stores the same
value; and `getContractByAddressAndChainId` normalizes the queried address the
same way, so a lookup under any casing of the stored address finds the row
(stated over a database with no prior row in the same unique slot). -/
theorem insertContract_checksummed_lookup (k : Keccak) (now freshId : Nat)
    (db : DB) (c : InsertContract) (q : String)
    (hq : strToLower q = strToLower c.contractAddress)
    (hfresh : ∀ r ∈ db.contracts, ¬ (r.entityId = c.entityId ∧
      r.contractAddress = getAddress k c.contractAddress ∧
      r.chainId = c.chainId)) :
    (insertContract k now freshId db c).2.contractAddress
        = getAddress k c.contractAddress ∧
    (insertContract k now freshId db c).2.deployerAddress
        = getAddress k c.deployerAddress ∧
    (∀ a b : String, strToLower a = strToLower b →
      getAddress k a = getAddress k b) ∧
    getContractByAddressAndChainId k (insertContract k now freshId db c).1 q
        c.chainId c.entityId = some (insertContract k now freshId db c).2 := by
  have hcase : ∀ a b : String, strToLower a = strToLower b →
      getAddress k a = getAddress k b := by
    intro a b h
    unfold getAddress
    rw [h]
  have hqa : getAddress k q = getAddress k c.contractAddress := hcase q c.contractAddress hq
  refine ⟨rfl, rfl, hcase, ?_⟩
  simp only [getContractByAddressAndChainId, insertContract]
  rw [List.filter_append]
  have h1 : (db.contracts.filter fun r => decide (r.entityId = c.entityId ∧
      r.contractAddress = getAddress k q ∧ r.chainId = c.chainId)) = [] := by
    refine List.filter_eq_nil_iff.mpr fun r hr => ?_
    simpa [hqa] using hfresh r hr
  rw [h1]
  simp [hqa]

/-- Witness for the C8 theorem: registering with mixed-case inputs 0xAbC and
0xDeF stores their normalized forms, and a lookup under the differently cased
query 0xaBc finds the inserted row. -/
theorem insertContract_checksummed_lookup_witness :
    (insertContract (fun _ _ => false) 5 9 ⟨[], [], []⟩
        ⟨1, 1, 7, "0xAbC", "0xDeF", "0xh", ContractState.NOT_VERIFIED⟩).2.contractAddress
      = getAddress (fun _ _ => false) "0xAbC" ∧
    (insertContract (fun _ _ => false) 5 9 ⟨[], [], []⟩
        ⟨1, 1, 7, "0xAbC", "0xDeF", "0xh", ContractState.NOT_VERIFIED⟩).2.deployerAddress
      = getAddress (fun _ _ => false) "0xDeF" ∧
    (∀ a b : String, strToLower a = strToLower b →
      getAddress (fun _ _ => false) a = getAddress (fun _ _ => false) b) ∧
    getContractByAddressAndChainId (fun _ _ => false)
        (insertContract (fun _ _ => false) 5 9 ⟨[], [], []⟩
          ⟨1, 1, 7, "0xAbC", "0xDeF", "0xh", ContractState.NOT_VERIFIED⟩).1
        "0xaBc" 1 1
      = some (insertContract (fun _ _ => false) 5 9 ⟨[], [], []⟩
          ⟨1, 1, 7, "0xAbC", "0xDeF", "0xh", ContractState.NOT_VERIFIED⟩).2 :=
  insertContract_checksummed_lookup (fun _ _ => false) 5 9 ⟨[], [], []⟩
    ⟨1, 1, 7, "0xAbC", "0xDeF", "0xh", ContractState.NOT_VERIFIED⟩ "0xaBc"
    (by decide) (by simp)

/-- C1: after a successful signature check, the challenge-complete and
contract-verify updates run in one database transaction: whatever statement
failures the oracle injects, either the call succeeds and in the resulting
database the scoped challenge is COMPLETED and the scoped contract VERIFIED,
or the transaction rolls back, the database is exactly the one before the
call, and the route answers 500 — a partially applied state is never
returned. -/
theorem completeVerification_atomic (chainSupported : Nat → Bool)
    (verifyMessage : String → String → String → Bool) (oracle : Nat → Bool)
    (now entityId challengeId : Nat) (signature : String) (db : DB)
    (ch : Challenge)
    (hch : getChallengeByChallengeId db entityId challengeId = some ch)
    (hstate : ch.state ≠ ChallengeState.EXPIRED)
    (hchain : chainSupported ch.chainId = true)
    (hsig : verifyMessage ch.address (generateChallenge ch.address) signature
      = true) :
    ((completeVerification chainSupported verifyMessage oracle now entityId
        challengeId signature db).2 = Except.ok true ∧
      (∀ x ∈ (completeVerification chainSupported verifyMessage oracle now
          entityId challengeId signature db).1.challenges,
        x.entityId = entityId → x.id = challengeId →
          x.state = ChallengeState.COMPLETED) ∧
      (∀ c ∈ (completeVerification chainSupported verifyMessage oracle now
          entityId challengeId signature db).1.contracts,
        c.entityId = entityId → c.id = ch.contractId →
          c.state = ContractState.VERIFIED)) ∨
    ((completeVerification chainSupported verifyMessage oracle now entityId
        challengeId signature db).1 = db ∧
      (completeVerification chainSupported verifyMessage oracle now entityId
        challengeId signature db).2
        = Except.error ⟨500, "server failed to mark challenge as complete"⟩) := by
  by_cases h0 : oracle 0
  · right
    simp only [completeVerification, hch]
    simp [hstate, hchain, hsig, h0]
  · by_cases h1 : oracle 1
    · right
      simp only [completeVerification, hch]
      simp [hstate, hchain, hsig, h0, h1]
    · left
      have hred : completeVerification chainSupported verifyMessage oracle now
          entityId challengeId signature db
          = ((verifyContract now (completeChallenge db entityId challengeId)
              entityId ch.contractId).1, Except.ok true) := by
        simp only [completeVerification, hch]
        simp [hstate, hchain, hsig, h0, h1]
      rw [hred]
      refine ⟨rfl, ?_, ?_⟩
      · intro x hx he hid
        simp only [verifyContract, completeChallenge] at hx
        obtain ⟨y, hy, rfl⟩ := List.mem_map.1 hx
        by_cases hm : y.entityId = entityId ∧ y.id = challengeId
        · simp [hm]
        · rw [if_neg hm] at he hid
          exact absurd ⟨he, hid⟩ hm
      · intro c hc he hid
        simp only [verifyContract, completeChallenge] at hc
        obtain ⟨y, hy, rfl⟩ := List.mem_map.1 hc
        by_cases hm : y.entityId = entityId ∧ y.id = ch.contractId
        · simp [hm]
        · rw [if_neg hm] at he hid
          exact absurd ⟨he, hid⟩ hm

/-- Witness for the C1 theorem at a concrete database holding the PENDING
challenge 5 for contract 3 of entity 1, with a healthy transaction (no
injected failure). -/
theorem completeVerification_atomic_witness :
    ((completeVerification (fun _ => true) (fun _ _ _ => true) (fun _ => false)
        9 1 5 "sig"
        ⟨[⟨0, 0, 3, 1, 1, 7, none, "0xabc", "0xdef", "0xh",
            ContractState.NOT_VERIFIED⟩],
         [⟨5, 1, 3, "0xdef", 1, ChallengeState.PENDING, 0⟩], []⟩).2
        = Except.ok true ∧
      (∀ x ∈ (completeVerification (fun _ => true) (fun _ _ _ => true)
          (fun _ => false) 9 1 5 "sig"
          ⟨[⟨0, 0, 3, 1, 1, 7, none, "0xabc", "0xdef", "0xh",
              ContractState.NOT_VERIFIED⟩],
           [⟨5, 1, 3, "0xdef", 1, ChallengeState.PENDING, 0⟩], []⟩).1.challenges,
        x.entityId = 1 → x.id = 5 → x.state = ChallengeState.COMPLETED) ∧
      (∀ c ∈ (completeVerification (fun _ => true) (fun _ _ _ => true)
          (fun _ => false) 9 1 5 "sig"
          ⟨[⟨0, 0, 3, 1, 1, 7, none, "0xabc", "0xdef", "0xh",
              ContractState.NOT_VERIFIED⟩],
           [⟨5, 1, 3, "0xdef", 1, ChallengeState.PENDING, 0⟩], []⟩).1.contracts,
        c.entityId = 1 → c.id = 3 → c.state = ContractState.VERIFIED)) ∨
    ((completeVerification (fun _ => true) (fun _ _ _ => true) (fun _ => false)
        9 1 5 "sig"
        ⟨[⟨0, 0, 3, 1, 1, 7, none, "0xabc", "0xdef", "0xh",
            ContractState.NOT_VERIFIED⟩],
         [⟨5, 1, 3, "0xdef", 1, ChallengeState.PENDING, 0⟩], []⟩).1
        = ⟨[⟨0, 0, 3, 1, 1, 7, none, "0xabc", "0xdef", "0xh",
            ContractState.NOT_VERIFIED⟩],
           [⟨5, 1, 3, "0xdef", 1, ChallengeState.PENDING, 0⟩], []⟩ ∧
      (completeVerification (fun _ => true) (fun _ _ _ => true) (fun _ => false)
        9 1 5 "sig"
        ⟨[⟨0, 0, 3, 1, 1, 7, none, "0xabc", "0xdef", "0xh",
            ContractState.NOT_VERIFIED⟩],
         [⟨5, 1, 3, "0xdef", 1, ChallengeState.PENDING, 0⟩], []⟩).2
        = Except.error ⟨500, "server failed to mark challenge as complete"⟩) :=
  completeVerification_atomic (fun _ => true) (fun _ _ _ => true)
    (fun _ => false) 9 1 5 "sig"
    ⟨[⟨0, 0, 3, 1, 1, 7, none, "0xabc", "0xdef", "0xh",
        ContractState.NOT_VERIFIED⟩],
     [⟨5, 1, 3, "0xdef", 1, ChallengeState.PENDING, 0⟩], []⟩
    ⟨5, 1, 3, "0xdef", 1, ChallengeState.PENDING, 0⟩
    rfl (by decide) rfl rfl

/-- C4 counterexample: the claim says a COMPLETED challenge is rejected, but
the route only rejects an absent or EXPIRED one — on a database whose
challenge 5 is already COMPLETED, a second `completeVerification` with a valid
signature answers success, not a rejection. -/
theorem completeVerification_completed_not_rejected :
    (completeVerification (fun _ => true) (fun _ _ _ => true) (fun _ => false)
        9 1 5 "sig"
        ⟨[⟨0, 0, 3, 1, 1, 7, none, "0xabc", "0xdef", "0xh",
            ContractState.VERIFIED⟩],
         [⟨5, 1, 3, "0xdef", 1, ChallengeState.COMPLETED, 0⟩], []⟩).2
      = Except.ok true ∧
    (getChallengeByChallengeId
        ⟨[⟨0, 0, 3, 1, 1, 7, none, "0xabc", "0xdef", "0xh",
            ContractState.VERIFIED⟩],
         [⟨5, 1, 3, "0xdef", 1, ChallengeState.COMPLETED, 0⟩], []⟩ 1 5).map
        Challenge.state
      = some ChallengeState.COMPLETED := ⟨rfl, rfl⟩

/-- C4 amended: `completeVerification` rejects exactly an absent or EXPIRED
challenge with 400; a COMPLETED challenge passes the guard, so a second call
with a valid signature is accepted and re-runs the updates, which leave the
challenge COMPLETED (re-applying is idempotent on the states, not a
rejection). -/
theorem completeVerification_rejects_absent_or_expired
    (chainSupported : Nat → Bool)
    (verifyMessage : String → String → String → Bool)
    (now entityId challengeId : Nat) (signature : String) (db : DB)
    (ch : Challenge)
    (hch : getChallengeByChallengeId db entityId challengeId = some ch)
    (hchain : chainSupported ch.chainId = true)
    (hsig : verifyMessage ch.address (generateChallenge ch.address) signature
      = true) :
    (ch.state = ChallengeState.EXPIRED →
      completeVerification chainSupported verifyMessage (fun _ => false) now
          entityId challengeId signature db
        = (db, Except.error ⟨400, "challenge does not exist or is expired"⟩)) ∧
    (∀ db2 : DB, getChallengeByChallengeId db2 entityId challengeId = none →
      completeVerification chainSupported verifyMessage (fun _ => false) now
          entityId challengeId signature db2
        = (db2, Except.error ⟨400, "challenge does not exist or is expired"⟩)) ∧
    (ch.state = ChallengeState.COMPLETED →
      (completeVerification chainSupported verifyMessage (fun _ => false) now
          entityId challengeId signature db).2 = Except.ok true ∧
      (∀ x ∈ (completeVerification chainSupported verifyMessage (fun _ => false)
          now entityId challengeId signature db).1.challenges,
        x.entityId = entityId → x.id = challengeId →
          x.state = ChallengeState.COMPLETED)) := by
  refine ⟨?_, ?_, ?_⟩
  · intro hexp
    simp only [completeVerification, hch]
    simp [hexp]
  · intro db2 h2
    simp only [completeVerification, h2]
  · intro hcomp
    have hstate : ch.state ≠ ChallengeState.EXPIRED := by
      rw [hcomp]
      decide
    have hred : completeVerification chainSupported verifyMessage
        (fun _ => false) now entityId challengeId signature db
        = ((verifyContract now (completeChallenge db entityId challengeId)
            entityId ch.contractId).1, Except.ok true) := by
      simp only [completeVerification, hch]
      simp [hstate, hchain, hsig]
    rw [hred]
    refine ⟨rfl, ?_⟩
    intro x hx he hid
    simp only [verifyContract, completeChallenge] at hx
    obtain ⟨y, hy, rfl⟩ := List.mem_map.1 hx
    by_cases hm : y.entityId = entityId ∧ y.id = challengeId
    · simp [hm]
    · rw [if_neg hm] at he hid
      exact absurd ⟨he, hid⟩ hm

/-- Witness for the C4 amended theorem over the database whose challenge 5 is
already COMPLETED, with a supported chain and valid signature. -/
theorem completeVerification_rejects_absent_or_expired_witness :
    ((⟨5, 1, 3, "0xdef", 1, ChallengeState.COMPLETED, 0⟩ : Challenge).state
        = ChallengeState.EXPIRED →
      completeVerification (fun _ => true) (fun _ _ _ => true) (fun _ => false)
          9 1 5 "sig"
          ⟨[⟨0, 0, 3, 1, 1, 7, none, "0xabc", "0xdef", "0xh",
              ContractState.VERIFIED⟩],
           [⟨5, 1, 3, "0xdef", 1, ChallengeState.COMPLETED, 0⟩], []⟩
        = (⟨[⟨0, 0, 3, 1, 1, 7, none, "0xabc", "0xdef", "0xh",
              ContractState.VERIFIED⟩],
            [⟨5, 1, 3, "0xdef", 1, ChallengeState.COMPLETED, 0⟩], []⟩,
           Except.error ⟨400, "challenge does not exist or is expired"⟩)) ∧
    (∀ db2 : DB, getChallengeByChallengeId db2 1 5 = none →
      completeVerification (fun _ => true) (fun _ _ _ => true) (fun _ => false)
          9 1 5 "sig" db2
        = (db2, Except.error ⟨400, "challenge does not exist or is expired"⟩)) ∧
    ((⟨5, 1, 3, "0xdef", 1, ChallengeState.COMPLETED, 0⟩ : Challenge).state
        = ChallengeState.COMPLETED →
      (completeVerification (fun _ => true) (fun _ _ _ => true) (fun _ => false)
          9 1 5 "sig"
          ⟨[⟨0, 0, 3, 1, 1, 7, none, "0xabc", "0xdef", "0xh",
              ContractState.VERIFIED⟩],
           [⟨5, 1, 3, "0xdef", 1, ChallengeState.COMPLETED, 0⟩], []⟩).2
        = Except.ok true ∧
      (∀ x ∈ (completeVerification (fun _ => true) (fun _ _ _ => true)
          (fun _ => false) 9 1 5 "sig"
          ⟨[⟨0, 0, 3, 1, 1, 7, none, "0xabc", "0xdef", "0xh",
              ContractState.VERIFIED⟩],
           [⟨5, 1, 3, "0xdef", 1, ChallengeState.COMPLETED, 0⟩], []⟩).1.challenges,
        x.entityId = 1 → x.id = 5 → x.state = ChallengeState.COMPLETED)) :=
  completeVerification_rejects_absent_or_expired (fun _ => true)
    (fun _ _ _ => true) 9 1 5 "sig"
    ⟨[⟨0, 0, 3, 1, 1, 7, none, "0xabc", "0xdef", "0xh",
        ContractState.VERIFIED⟩],
     [⟨5, 1, 3, "0xdef", 1, ChallengeState.COMPLETED, 0⟩], []⟩
    ⟨5, 1, 3, "0xdef", 1, ChallengeState.COMPLETED, 0⟩
    rfl rfl rfl

/-- C2 counterexample: on a database already holding the active
(NOT_VERIFIED) contract 0xabc for entity 1 on chain 1, registering it again is
rejected — but with 500 `error creating contract`, not the 400
`contract already exists` the claim states: the 400 thrown inside the
database transaction is swallowed by the catch attached to the transaction
and re-raised as the 500. -/
theorem createContract_duplicate_counterexample :
    ((getContractByAddressAndChainId (fun _ _ => false)
        ⟨[⟨0, 0, 3, 1, 1, 6, none, "0xabc", "0xdef", "0xhash",
            ContractState.NOT_VERIFIED⟩], [], []⟩
        "0xAbC" 1 1).map Contract.state = some ContractState.NOT_VERIFIED) ∧
    ((createContract (fun _ _ => false)
        (fun _ => some ⟨Except.ok ⟨"0xhash", "0xbh"⟩,
          Except.ok ⟨"0xdef", some "0xabc"⟩, Except.ok ⟨100⟩, Except.ok none⟩)
        5 9 1 ⟨"0xAbC", "0xhash", "0xDeF", 1, 7⟩
        ⟨[⟨0, 0, 3, 1, 1, 6, none, "0xabc", "0xdef", "0xhash",
            ContractState.NOT_VERIFIED⟩], [], []⟩).2
      = Except.error ⟨500, "error creating contract"⟩) ∧
    (⟨500, "error creating contract"⟩ : ApiErr) ≠ ⟨400, "contract already exists"⟩ :=
  ⟨rfl, rfl, by decide⟩

/-- C2 amended: once the on-chain checks pass, an existing non-DELETED match
on (entityId, chainId, contractAddress) makes the request fail with 500
`error creating contract` (the in-transaction 400 `contract already exists`
is remapped by the catch-all on the transaction); a DELETED match is restored
— same row id, reassigned to the requested app, VERIFIED exactly when the
entity already has a VERIFIED contract from this deployer, with no change in
the number of contract rows; and with no match a fresh contract row plus its
deployment transaction record are inserted. -/
theorem createContract_registration_cases (k : Keccak)
    (clients : Nat → Option PublicClient) (now freshId entityId : Nat)
    (input : CreateContractInput) (db : DB) (pc : PublicClient)
    (dtx : DeploymentTx) (receipt : TxReceipt) (block : Block)
    (txAddr : String)
    (hclient : clients input.chainId = some pc)
    (htx : pc.getTransaction = Except.ok dtx)
    (hrc : pc.getTransactionReceipt = Except.ok receipt)
    (hbl : pc.getBlock = Except.ok block)
    (hres : resolveContractAddress pc receipt = Except.ok txAddr)
    (hdep : addressEqualityCheck receipt.from_
      (getAddress k input.deployerAddress) = true)
    (hcon : addressEqualityCheck txAddr
      (getAddress k input.contractAddress) = true) :
    (∀ c, getContractByAddressAndChainId k db
        (getAddress k input.contractAddress) input.chainId entityId = some c →
      c.state ≠ ContractState.DELETED →
      createContract k clients now freshId entityId input db
        = (db, Except.error ⟨500, "error creating contract"⟩)) ∧
    (∀ c, getContractByAddressAndChainId k db
        (getAddress k input.contractAddress) input.chainId entityId = some c →
      c.state = ContractState.DELETED →
      createContract k clients now freshId entityId input db
        = ((restoreDeletedContract now db c.id input.appId
              (if hasAlreadyVerifiedDeployer k db entityId
                  (getAddress k input.deployerAddress) then
                ContractState.VERIFIED else ContractState.NOT_VERIFIED)).1,
           Except.ok (restoreDeletedContract now db c.id input.appId
              (if hasAlreadyVerifiedDeployer k db entityId
                  (getAddress k input.deployerAddress) then
                ContractState.VERIFIED else ContractState.NOT_VERIFIED)).2) ∧
      (restoreDeletedContract now db c.id input.appId
          (if hasAlreadyVerifiedDeployer k db entityId
              (getAddress k input.deployerAddress) then
            ContractState.VERIFIED else ContractState.NOT_VERIFIED)).1.contracts.length
        = db.contracts.length ∧
      (∀ r, (restoreDeletedContract now db c.id input.appId
          (if hasAlreadyVerifiedDeployer k db entityId
              (getAddress k input.deployerAddress) then
            ContractState.VERIFIED else ContractState.NOT_VERIFIED)).2 = some r →
        r.id = c.id ∧ r.appId = input.appId ∧
        r.state = (if hasAlreadyVerifiedDeployer k db entityId
            (getAddress k input.deployerAddress) then
          ContractState.VERIFIED else ContractState.NOT_VERIFIED)) ∧
      ((restoreDeletedContract now db c.id input.appId
          (if hasAlreadyVerifiedDeployer k db entityId
              (getAddress k input.deployerAddress) then
            ContractState.VERIFIED else ContractState.NOT_VERIFIED)).2).isSome = true) ∧
    (getContractByAddressAndChainId k db
        (getAddress k input.contractAddress) input.chainId entityId = none →
      createContract k clients now freshId entityId input db
        = (insertTransaction
            (insertContract k now freshId db
              ⟨entityId, input.chainId, input.appId,
                getAddress k input.contractAddress,
                getAddress k input.deployerAddress,
                input.deploymentTxHash,
                if hasAlreadyVerifiedDeployer k db entityId
                    (getAddress k input.deployerAddress) then
                  ContractState.VERIFIED else ContractState.NOT_VERIFIED⟩).1
            (viemContractDeploymentTransactionToDbTransaction receipt.from_
              dtx.hash entityId input.chainId freshId block.timestamp),
          Except.ok (some (insertContract k now freshId db
            ⟨entityId, input.chainId, input.appId,
              getAddress k input.contractAddress,
              getAddress k input.deployerAddress,
              input.deploymentTxHash,
              if hasAlreadyVerifiedDeployer k db entityId
                  (getAddress k input.deployerAddress) then
                ContractState.VERIFIED else ContractState.NOT_VERIFIED⟩).2))) := by
  refine ⟨?_, ?_, ?_⟩
  · intro c hc hcs
    simp only [createContract, hclient, htx, hrc, hbl, hres, hdep, hcon,
      createContractTxnBody, hc]
    simp [hcs]
  · intro c hc hcs
    have hnot : ¬ c.state ≠ ContractState.DELETED := by simp [hcs]
    refine ⟨?_, ?_, ?_, ?_⟩
    · simp only [createContract, hclient, htx, hrc, hbl, hres, hdep, hcon,
        createContractTxnBody, hc]
      simp [hcs]
    · simp [restoreDeletedContract]
    · intro r hr
      simp only [restoreDeletedContract] at hr
      have hrmem := List.mem_filter.mp (List.mem_of_mem_head? (Option.mem_def.mpr hr))
      obtain ⟨hrm, hrid⟩ := hrmem
      obtain ⟨y, hy, rfl⟩ := List.mem_map.1 hrm
      by_cases hm : y.id = c.id
      · simp [hm]
      · rw [if_neg hm] at hrid
        simp at hrid
        exact absurd hrid hm
    · have hcmem : c ∈ db.contracts := by
        simp only [getContractByAddressAndChainId] at hc
        exact (List.mem_filter.mp (List.mem_of_mem_head? (Option.mem_def.mpr hc))).1
      simp only [restoreDeletedContract]
      have hfc : ({ c with
          state := (if hasAlreadyVerifiedDeployer k db entityId
              (getAddress k input.deployerAddress) then
            ContractState.VERIFIED else ContractState.NOT_VERIFIED),
          appId := input.appId, updatedAt := now } : Contract) ∈
          (db.contracts.map fun x =>
            if x.id = c.id then
              { x with
                state := (if hasAlreadyVerifiedDeployer k db entityId
                    (getAddress k input.deployerAddress) then
                  ContractState.VERIFIED else ContractState.NOT_VERIFIED),
                appId := input.appId, updatedAt := now } else x) := by
        refine List.mem_map.mpr ⟨c, hcmem, ?_⟩
        rw [if_pos rfl]
      have hne : ((db.contracts.map fun x =>
          if x.id = c.id then
            { x with
              state := (if hasAlreadyVerifiedDeployer k db entityId
                  (getAddress k input.deployerAddress) then
                ContractState.VERIFIED else ContractState.NOT_VERIFIED),
              appId := input.appId, updatedAt := now } else x).filter fun x =>
            decide (x.id = c.id)) ≠ [] := by
        intro hnil
        have := List.filter_eq_nil_iff.mp hnil _ hfc
        simp at this
      cases hfl : ((db.contracts.map fun x =>
          if x.id = c.id then
            { x with
              state := (if hasAlreadyVerifiedDeployer k db entityId
                  (getAddress k input.deployerAddress) then
                ContractState.VERIFIED else ContractState.NOT_VERIFIED),
              appId := input.appId, updatedAt := now } else x).filter fun x =>
            decide (x.id = c.id)) with
      | nil => exact absurd hfl hne
      | cons a t => simp [hfl]
  · intro hnone
    simp only [createContract, hclient, htx, hrc, hbl, hres, hdep, hcon,
      createContractTxnBody, hnone, insertContract, insertTransaction]
    simp

/-- Witness for the C2 amended theorem: re-registering contract 0xabc whose
row is DELETED restores that row instead of inserting a new one. -/
theorem createContract_registration_cases_witness :
    createContract (fun _ _ => false)
        (fun _ => some ⟨Except.ok ⟨"0xhash", "0xbh"⟩,
          Except.ok ⟨"0xdef", some "0xabc"⟩, Except.ok ⟨100⟩, Except.ok none⟩)
        5 9 1 ⟨"0xAbC", "0xhash", "0xDeF", 1, 7⟩
        ⟨[⟨0, 0, 3, 1, 1, 6, none, "0xabc", "0xdef", "0xhash",
            ContractState.DELETED⟩], [], []⟩
      = ((restoreDeletedContract 5
            ⟨[⟨0, 0, 3, 1, 1, 6, none, "0xabc", "0xdef", "0xhash",
                ContractState.DELETED⟩], [], []⟩ 3 7
            (if hasAlreadyVerifiedDeployer (fun _ _ => false)
                ⟨[⟨0, 0, 3, 1, 1, 6, none, "0xabc", "0xdef", "0xhash",
                    ContractState.DELETED⟩], [], []⟩ 1
                (getAddress (fun _ _ => false) "0xDeF") then
              ContractState.VERIFIED else ContractState.NOT_VERIFIED)).1,
         Except.ok (restoreDeletedContract 5
            ⟨[⟨0, 0, 3, 1, 1, 6, none, "0xabc", "0xdef", "0xhash",
                ContractState.DELETED⟩], [], []⟩ 3 7
            (if hasAlreadyVerifiedDeployer (fun _ _ => false)
                ⟨[⟨0, 0, 3, 1, 1, 6, none, "0xabc", "0xdef", "0xhash",
                    ContractState.DELETED⟩], [], []⟩ 1
                (getAddress (fun _ _ => false) "0xDeF") then
              ContractState.VERIFIED else ContractState.NOT_VERIFIED)).2) :=
  ((createContract_registration_cases (fun _ _ => false)
      (fun _ => some ⟨Except.ok ⟨"0xhash", "0xbh"⟩,
        Except.ok ⟨"0xdef", some "0xabc"⟩, Except.ok ⟨100⟩, Except.ok none⟩)
      5 9 1 ⟨"0xAbC", "0xhash", "0xDeF", 1, 7⟩
      ⟨[⟨0, 0, 3, 1, 1, 6, none, "0xabc", "0xdef", "0xhash",
          ContractState.DELETED⟩], [], []⟩
      ⟨Except.ok ⟨"0xhash", "0xbh"⟩, Except.ok ⟨"0xdef", some "0xabc"⟩,
        Except.ok ⟨100⟩, Except.ok none⟩
      ⟨"0xhash", "0xbh"⟩ ⟨"0xdef", some "0xabc"⟩ ⟨100⟩ "0xabc"
      rfl rfl rfl rfl rfl rfl rfl).2.1
    ⟨0, 0, 3, 1, 1, 6, none, "0xabc", "0xdef", "0xhash", ContractState.DELETED⟩
    rfl rfl).1
